import Mathlib

/-!
Shallow embedding of dhruvkb/issue-projector (a GitHub Actions script that
files recently created issues as cards into a project-board column).

The embedded code is src/functions.ts (staged as src/unnamed/part_002),
src/util.ts with src/index.ts (staged as src/unnamed/part_004), and the
type declarations. The GitHub REST API (Octokit) is an external
collaborator: it is modelled as a `Client` record of response behaviour
together with an `ApiState` of existing project cards; every remote call
an embedded function issues is recorded in an `ApiCall` trace, and every
`core.debug/info/warning/error` line in a `LogEntry` list. Clock reads
(`new Date()`) are modelled by threading an explicit `now : Int`
(milliseconds since the epoch, a uniform timeline; daylight-saving shifts
of the JavaScript local-time calendar are not modelled). `Date.prototype
.toISOString`, a JavaScript built-in, is abstracted as the injective
decimal rendering of the timestamp.
-/

namespace IssueProjector

/-- Reduced form of a GitHub issue (src/types.ts). -/
structure Issue where
  id : Nat
  title : String
  isPullRequest : Bool
deriving DecidableEq

/-- Error returned from the GitHub API (src/types.ts). -/
structure GitHubError where
  resource : String
  code : String
  field : String
  message : String
deriving DecidableEq

/-- Outcome of a remote write as built by `addIssueToColumn`
(src/types.ts: isSuccessful, optional data, error messages). -/
structure Outcome (α : Type) where
  isSuccessful : Bool
  data : Option α := none
  errors : List String := []
deriving DecidableEq

/-- Levels of the `@actions/core` logging functions. -/
inductive LogLevel
  | debug
  | info
  | warning
  | error
deriving DecidableEq

/-- One emitted log line. -/
structure LogEntry where
  level : LogLevel
  msg : String
deriving DecidableEq

/-- JavaScript truthiness of a `number | null | undefined` value:
`null`/`undefined` and `0` are falsy, every other number is truthy. -/
def truthyNat : Option Nat → Bool
  | none => false
  | some n => n ≠ 0

/-- JavaScript truthiness of an `Int`-valued `number | null` value. -/
def truthyInt : Option Int → Bool
  | none => false
  | some n => n ≠ 0

/-- Get the date that is offset from now by the given delta
(src/util.ts `dateOffset`). The unit parameter is `Option String`
because JavaScript applies the declared default `'d'` exactly when the
argument is `undefined` (`none`). `setDate`/`setHours` with an
out-of-range value roll over, so the result is a whole-day
(86400000 ms) or whole-hour (3600000 ms) shift of the clock value. -/
def dateOffset (delta : Int) (deltaUnit : Option String) (now : Int) : Int :=
  let unit := deltaUnit.getD "d"
  if unit = "d" then now + delta * 86400000 else now + delta * 3600000

/-- JavaScript `Date.prototype.toISOString`, abstracted as the decimal
rendering of the epoch timestamp (an injective stand-in; no claim
depends on the textual format). -/
def toISOString (t : Int) : String := toString t

/-- The search criteria list built by `getNewIssues`
(src/functions.ts lines 166-173): `is:open`, the organisation scope and
the creation-date lower bound, plus `is:<type>` pushed when the type
filter is not `any`. -/
def searchCriteria (orgName issueType : String) (startTime : Int) : List String :=
  let criteria := ["is:open", "org:" ++ orgName, "created:>=" ++ toISOString startTime]
  if issueType ≠ "any" then criteria ++ ["is:" ++ issueType] else criteria

/-- A project as returned by `projects.listForOrg`: absolute ID, number
within the organisation, display name. -/
structure Project where
  id : Nat
  number : Int
  name : String
deriving DecidableEq

/-- A column as returned by `projects.listColumns`. -/
structure Column where
  id : Nat
  name : String
deriving DecidableEq

/-- One record of a `search.issuesAndPullRequests` result page. -/
structure SearchItem where
  id : Nat
  title : String
  hasPullRequestField : Bool
deriving DecidableEq

/-- A project card held by the remote side. -/
structure Card where
  id : Nat
  columnId : Nat
  contentId : Nat
deriving DecidableEq

/-- The mutable remote state: the cards that exist, and the ID the next
created card receives. -/
structure ApiState where
  cards : List Card
  nextCardId : Nat
deriving DecidableEq

/-- What `projects.createCard` answers: the new card (the code uses its
ID), or the error list of the thrown request error. -/
inductive CreateCardResponse
  | success (cardId : Nat)
  | failure (errors : List GitHubError)
deriving DecidableEq

/-- A remote call, as recorded in the trace of an embedded function. -/
inductive ApiCall
  | listForOrg (org : String)
  | listColumns (projectId : Nat)
  | searchIssues (q : String)
  | createCard (columnId contentId : Nat)
  | deleteCard (cardId : Nat)
deriving DecidableEq

/-- The pre-authenticated Octokit client, modelled as the responses the
remote side gives: the organisation's projects, each project's columns,
the search result pages with their upstream total count, and the
behaviour of card creation/deletion against the remote state. -/
structure Client where
  projects : List Project
  columns : Nat → List Column
  searchPages : List (List SearchItem)
  totalCount : Nat
  createCard : ApiState → Nat → Nat → CreateCardResponse × ApiState
  deleteCard : ApiState → Nat → ApiState

/-- The upstream duplicate-detection message (src/functions.ts lines 31
and 224, `falseAlarm`). -/
def falseAlarm : String := "Project already has the associated issue"

/-- Whether the project owning `columnId` (per the column-to-project map
`cp`) already has a card for content `contentId` in any of its columns. -/
def hasIssueInProject (cp : Nat → Nat) (st : ApiState) (columnId contentId : Nat) : Bool :=
  st.cards.any fun c => cp c.columnId = cp columnId && c.contentId = contentId

/-- GitHub's `createCard` behaviour: fail with the `falseAlarm` message
when the column's project already has the issue, otherwise mint a card
with the next ID. -/
def githubCreateCard (cp : Nat → Nat) (st : ApiState) (columnId contentId : Nat) :
    CreateCardResponse × ApiState :=
  if hasIssueInProject cp st columnId contentId then
    (.failure [⟨"ProjectCard", "unprocessable", "data", falseAlarm⟩], st)
  else
    (.success st.nextCardId,
     ⟨st.cards ++ [⟨st.nextCardId, columnId, contentId⟩], st.nextCardId + 1⟩)

/-- GitHub's `deleteCard` behaviour: drop the card with the given ID. -/
def githubDeleteCard (st : ApiState) (cardId : Nat) : ApiState :=
  ⟨st.cards.filter fun c => c.id ≠ cardId, st.nextCardId⟩

/-- A client whose card writes behave like GitHub under the
column-to-project map `cp`. -/
def githubClient (cp : Nat → Nat) (projects : List Project)
    (columns : Nat → List Column) (searchPages : List (List SearchItem))
    (totalCount : Nat) : Client :=
  ⟨projects, columns, searchPages, totalCount, githubCreateCard cp, githubDeleteCard⟩

/-- Add the issue with the given ID to the given project column
(src/functions.ts `addIssueToColumn`, lines 43-67): try the create,
record success with the card's ID, or catch and keep the error
messages. -/
def addIssueToColumn (client : Client) (st : ApiState) (issueId columnId : Nat) :
    Outcome Nat × ApiState × List ApiCall :=
  let (resp, st') := client.createCard st columnId issueId
  match resp with
  | .success cardId =>
      (⟨true, some cardId, []⟩, st', [.createCard columnId issueId])
  | .failure errs =>
      (⟨false, none, errs.map (·.message)⟩, st', [.createCard columnId issueId])

/-- Result of one exclusion check. -/
structure CheckResult where
  result : Bool
  st : ApiState
  trace : List ApiCall
  logs : List LogEntry
deriving DecidableEq

/-- Check if the given issue is already present in the given project
(src/functions.ts `isIssueInProject`, lines 14-34): probe by creating a
card in the project's column; on success delete the probe card (the
delete is guarded by the truthiness of the card ID) and answer `false`;
on failure answer whether the error messages include `falseAlarm`. -/
def isIssueInProject (client : Client) (st : ApiState) (issueId columnId : Nat) :
    CheckResult :=
  let (o, st1, tr1) := addIssueToColumn client st issueId columnId
  if o.isSuccessful then
    match o.data with
    | some cardId =>
        if cardId ≠ 0 then
          ⟨false, client.deleteCard st1 cardId, tr1 ++ [.deleteCard cardId],
           [⟨.debug, "Card created in excluded project"⟩,
            ⟨.debug, "Card deleted from excluded project"⟩]⟩
        else
          ⟨false, st1, tr1, [⟨.debug, "Card created in excluded project"⟩]⟩
    | none => ⟨false, st1, tr1, [⟨.debug, "Card created in excluded project"⟩]⟩
  else
    ⟨o.errors.contains falseAlarm, st1, tr1, []⟩

/-- Get the ID of a project with the given number in the given
organisation (src/functions.ts `getProjectId`, lines 78-97). -/
def getProjectId (client : Client) (orgName : String) (projectNumber : Int) :
    Except String Nat × List ApiCall × List LogEntry :=
  match client.projects.find? fun proj => proj.number = projectNumber with
  | none => (.error "Project not found", [.listForOrg orgName], [])
  | some project =>
      (.ok project.id, [.listForOrg orgName],
       [⟨.info, "Project ID: " ++ toString project.id⟩,
        ⟨.info, "Project Name: " ++ project.name⟩])

/-- Get the IDs of all columns in the given project
(src/functions.ts `getColumnIds`, lines 107-114). -/
def getColumnIds (client : Client) (projectId : Nat) :
    List Nat × List ApiCall × List LogEntry :=
  let columns := client.columns projectId
  (columns.map (·.id), [.listColumns projectId],
   [⟨.info, "Retrieved " ++ toString columns.length ++ " columns"⟩])

/-- Get the ID of the column with the given name in the given project
(src/functions.ts `getColumnId`, lines 125-143). -/
def getColumnId (client : Client) (projectId : Nat) (columnName : String) :
    Except String Nat × List ApiCall × List LogEntry :=
  match (client.columns projectId).find? fun col => col.name = columnName with
  | none => (.error "Column not found", [.listColumns projectId], [])
  | some column =>
      (.ok column.id, [.listColumns projectId],
       [⟨.info, "Column ID: " ++ toString column.id⟩])

/-- The projection each search record goes through
(src/functions.ts lines 186-190). -/
def toIssue (item : SearchItem) : Issue :=
  ⟨item.id, item.title, item.hasPullRequestField⟩

/-- The page-consuming loop of `getNewIssues` (src/functions.ts lines
177-192): push every page's projected records, in page order. -/
def collectPages : List (List SearchItem) → List Issue
  | [] => []
  | page :: rest => page.map toIssue ++ collectPages rest

/-- The per-page `core.debug` lines of the pagination loop. -/
def fetchLogs (total : Nat) : List (List SearchItem) → Nat → List LogEntry
  | [], _ => []
  | page :: rest, seen =>
      ⟨.debug, "Fetched " ++ toString (seen + page.length) ++ "/" ++
        toString total ++ " issues."⟩ :: fetchLogs total rest (seen + page.length)

/-- Get a list of issues created in the specified time interval
(src/functions.ts `getNewIssues`, lines 156-196): build the search
query from `dateOffset` and `searchCriteria`, consume every result
page, and log the retrieval. -/
def getNewIssues (client : Client) (orgName issueType : String) (interval : Int)
    (intervalUnit : Option String) (now : Int) :
    List Issue × List ApiCall × List LogEntry :=
  let startTime := dateOffset (-interval) intervalUnit now
  let criteria := searchCriteria orgName issueType startTime
  let q := String.intercalate "+" criteria
  let newIssues := collectPages client.searchPages
  (newIssues, [.searchIssues q],
   fetchLogs client.totalCount client.searchPages 0 ++
     [⟨.info, "Retrieved " ++ toString newIssues.length ++ " new issues"⟩])

/-- State, trace and logs after part of the filing loop. -/
structure FilingStep where
  st : ApiState
  trace : List ApiCall
  logs : List LogEntry
deriving DecidableEq

/-- The card-creation half of one filing-loop iteration
(src/functions.ts lines 220-230): attempt the create in the target
column and log success, duplicate (warning) or failure (error). -/
def fileCreate (client : Client) (columnId : Nat) (issue : Issue) (st : ApiState)
    (tr0 : List ApiCall) (lg0 : List LogEntry) : FilingStep :=
  let (o, st', tr) := addIssueToColumn client st issue.id columnId
  let entry : LogEntry :=
    if o.isSuccessful then
      ⟨.info, "Card creation succeeded for issue \x27" ++ issue.title ++ "\x27."⟩
    else if o.errors.contains falseAlarm then
      ⟨.warning, "Card already exists for issue \x27" ++ issue.title ++ "\x27."⟩
    else
      ⟨.error, "Card creation failed for issue \x27" ++ issue.title ++ "\x27."⟩
  ⟨st', tr0 ++ tr, lg0 ++ [entry]⟩

/-- One iteration of the filing loop (src/functions.ts lines 214-231):
when the excluded column ID is truthy, run the exclusion check first;
a positive check skips the issue with a warning, otherwise the
card-creation attempt follows. -/
def fileOne (client : Client) (columnId : Nat) (excludedColumnId : Option Nat)
    (issue : Issue) (st : ApiState) : FilingStep :=
  match excludedColumnId with
  | some e =>
      if e ≠ 0 then
        let c := isIssueInProject client st issue.id e
        if c.result then
          ⟨c.st, c.trace,
           c.logs ++ [⟨.warning, "Ignoring issue \x27" ++ issue.title ++
             "\x27 as it belongs to excluded project"⟩]⟩
        else
          fileCreate client columnId issue c.st c.trace c.logs
      else
        fileCreate client columnId issue st [] []
  | none => fileCreate client columnId issue st [] []

/-- Add the given new issues to the given project column, one at a time
in list order (src/functions.ts `performFiling`, lines 207-232). -/
def performFiling (client : Client) (columnId : Nat) (excludedColumnId : Option Nat) :
    List Issue → ApiState → FilingStep
  | [], st => ⟨st, [], []⟩
  | issue :: rest, st =>
      let s := fileOne client columnId excludedColumnId issue st
      let r := performFiling client columnId excludedColumnId rest s.st
      ⟨r.st, s.trace ++ r.trace, s.logs ++ r.logs⟩

/-- Result of a whole `fileIssues` run. -/
structure RunOutcome where
  result : Except String Unit
  st : ApiState
  trace : List ApiCall
  logs : List LogEntry

/-- Render a `number | undefined` the way a JavaScript template literal
does. -/
def showOptNat : Option Nat → String
  | none => "undefined"
  | some n => toString n

/-- Resolution of the optional excluded project (src/functions.ts lines
263-270): when the excluded project number is truthy, resolve it and
take the first column ID of the project (`undefined` when the project
has no columns). -/
def resolveExcludedColumn (client : Client) (orgName : String)
    (excludedProjectNumber : Option Int) :
    Except String (Option Nat) × List ApiCall × List LogEntry :=
  match excludedProjectNumber with
  | some epn =>
      if epn ≠ 0 then
        match getProjectId client orgName epn with
        | (.error e, tr, lg) => (.error e, tr, lg)
        | (.ok excludedProjectId, tr, lg) =>
            let (ids, tr', lg') := getColumnIds client excludedProjectId
            let excludedColumnId := ids.head?
            (.ok excludedColumnId, tr ++ tr',
             lg ++ lg' ++ [⟨.info, "Column ID: " ++ showOptNat excludedColumnId⟩])
      else (.ok none, [], [])
  | none => (.ok none, [], [])

/-- Add all issues created in the last time interval to the given
project column, skipping issues present in the excluded project
(src/functions.ts `fileIssues`, lines 248-277). A thrown lookup error
short-circuits the remaining steps. -/
def fileIssues (client : Client) (orgName : String) (projectNumber : Int)
    (columnName : String) (excludedProjectNumber : Option Int) (issueType : String)
    (interval : Int) (intervalUnit : Option String) (now : Int) (st : ApiState) :
    RunOutcome :=
  match getProjectId client orgName projectNumber with
  | (.error e, tr1, lg1) => ⟨.error e, st, tr1, lg1⟩
  | (.ok projectId, tr1, lg1) =>
    match getColumnId client projectId columnName with
    | (.error e, tr2, lg2) => ⟨.error e, st, tr1 ++ tr2, lg1 ++ lg2⟩
    | (.ok columnId, tr2, lg2) =>
      match resolveExcludedColumn client orgName excludedProjectNumber with
      | (.error e, tr3, lg3) => ⟨.error e, st, tr1 ++ tr2 ++ tr3, lg1 ++ lg2 ++ lg3⟩
      | (.ok excludedColumnId, tr3, lg3) =>
        let (newIssues, tr4, lg4) := getNewIssues client orgName issueType interval intervalUnit now
        let f := performFiling client columnId excludedColumnId newIssues st
        ⟨.ok (), f.st, tr1 ++ tr2 ++ tr3 ++ tr4 ++ f.trace,
         lg1 ++ lg2 ++ lg3 ++ lg4 ++ f.logs⟩

/-- Decimal digits to a number, most significant first; `none` when a
non-digit appears. -/
def parseDigitsAux : List Char → Nat → Option Nat
  | [], acc => some acc
  | c :: cs, acc =>
      if c.isDigit then parseDigitsAux cs (acc * 10 + (c.toNat - 48)) else none

/-- A nonempty all-digit character list as a number. -/
def parseDigits (cs : List Char) : Option Nat :=
  match cs with
  | [] => none
  | _ => parseDigitsAux cs 0

/-- The JavaScript `parseInt` built-in on a plain decimal string, with
`none` for input that yields `NaN`. (Prefix parsing of trailing
garbage is not modelled; every input exercised here is a plain
decimal numeral.) -/
def parseIntJS (s : String) : Option Int :=
  match s.data with
  | '-' :: rest => (parseDigits rest).map fun n => -(n : Int)
  | cs => (parseDigits cs).map fun n => (n : Int)

/-- Overall status the hosting automation environment sees: success, or
failed with the caught exception's message (`core.setFailed`). -/
inductive RunStatus
  | success
  | failed (msg : String)
deriving DecidableEq

/-- What one `main` run produces. -/
structure MainResult where
  status : RunStatus
  st : ApiState
  trace : List ApiCall
  logs : List LogEntry

/-- `core.getInput(name, { required: true })`: the raw value, or the
throw for a missing required input. A missing input reads as `""`. -/
def getInputRequired (inputs : String → String) (name : String) : Except String String :=
  if inputs name = "" then .error ("Input required and not supplied: " ++ name)
  else .ok (inputs name)

/-- The action entry point (src/index.ts `main`, staged as
src/unnamed/part_004 lines 24-62): read and validate the inputs, then
run `fileIssues` inside the try/catch that marks the run failed with
the exception's message. The source reads no `INTERVAL_UNIT` input and
passes no `intervalUnit` argument to `fileIssues`, so that parameter is
`undefined` (`none`) here. `none` overall stands for a run whose
numeric input parses to `NaN`, which this embedding does not model
(every claim uses plain decimal inputs). -/
def main (inputs : String → String) (client : Client) (now : Int) (st : ApiState) :
    Option MainResult :=
  match getInputRequired inputs "ACCESS_TOKEN" with
  | .error e => some ⟨.failed e, st, [], []⟩
  | .ok accessToken =>
    let lgTok : List LogEntry :=
      [⟨.debug, "Access token: " ++ (if accessToken.length = 40 then "OK" else "Not OK")⟩]
    match getInputRequired inputs "ORG_NAME" with
    | .error e => some ⟨.failed e, st, [], lgTok⟩
    | .ok orgName =>
      let lgOrg := lgTok ++ [⟨.debug, "Org name: " ++ orgName⟩]
      match getInputRequired inputs "PROJECT_NUMBER" with
      | .error e => some ⟨.failed e, st, [], lgOrg⟩
      | .ok projectNumberRaw =>
        match parseIntJS projectNumberRaw with
        | none => none
        | some projectNumber =>
          let lgProj := lgOrg ++ [⟨.debug, "Project number: " ++ toString projectNumber⟩]
          match getInputRequired inputs "COLUMN_NAME" with
          | .error e => some ⟨.failed e, st, [], lgProj⟩
          | .ok columnName =>
            let lgCol := lgProj ++ [⟨.debug, "Column name: " ++ columnName⟩]
            match parseIntJS (if inputs "EXCLUDED_PROJECT_NUMBER" = "" then "-1"
                              else inputs "EXCLUDED_PROJECT_NUMBER") with
            | none => none
            | some epnParsed =>
              let excludedProjectNumber : Option Int :=
                if epnParsed = -1 then none else some epnParsed
              let lgEpn := lgCol ++ [⟨.debug, "Excluded project number: " ++
                (match excludedProjectNumber with
                 | none => "NA"
                 | some n => toString n)⟩]
              let issueType :=
                if inputs "ISSUE_TYPE" = "" then "any" else inputs "ISSUE_TYPE"
              if ["any", "issue", "pr"].contains issueType then
                let lgType := lgEpn ++ [⟨.debug, "Issue type: " ++ issueType⟩]
                match parseIntJS (if inputs "INTERVAL" = "" then "1"
                                  else inputs "INTERVAL") with
                | none => none
                | some interval =>
                  let lgInt := lgType ++ [⟨.debug, "Interval: " ++ toString interval⟩]
                  let r := fileIssues client orgName projectNumber columnName
                    excludedProjectNumber issueType interval none now st
                  match r.result with
                  | .ok _ => some ⟨.success, r.st, r.trace, lgInt ++ r.logs⟩
                  | .error e => some ⟨.failed e, r.st, r.trace, lgInt ++ r.logs⟩
              else
                some ⟨.failed "Invalid issue type specified", st, [], lgEpn⟩

/-! ## Helper lemmas -/

lemma org_term_ne_is_any (s : String) : "org:" ++ s ≠ "is:any" := by
  intro h
  have h2 := congrArg String.data h
  rw [String.data_append] at h2
  simp at h2

lemma created_term_ne_is_any (s : String) : "created:>=" ++ s ≠ "is:any" := by
  intro h
  have h2 := congrArg String.data h
  rw [String.data_append] at h2
  simp at h2

/-! ## C4 -/

/-- C4: for every issue-type filter in `any`/`issue`/`pr` and every
organisation name, the constructed search criteria contain `is:open`
and `org:<orgName>`, and contain the type term `is:<issueType>` exactly
when the filter is not `any`. -/
theorem search_query_terms (orgName issueType : String) (startTime : Int)
    (h : issueType ∈ ["any", "issue", "pr"]) :
    "is:open" ∈ searchCriteria orgName issueType startTime ∧
    ("org:" ++ orgName) ∈ searchCriteria orgName issueType startTime ∧
    (("is:" ++ issueType) ∈ searchCriteria orgName issueType startTime ↔
      issueType ≠ "any") := by
  simp only [List.mem_cons, List.not_mem_nil, or_false] at h
  rcases h with h | h | h <;> subst h <;>
    simp [searchCriteria, org_term_ne_is_any orgName,
      created_term_ne_is_any (toISOString startTime),
      (org_term_ne_is_any orgName).symm,
      (created_term_ne_is_any (toISOString startTime)).symm]

/-- Witness for C4 at the filter `pr` and the organisation `octo`. -/
theorem search_query_terms_witness :
    "is:open" ∈ searchCriteria "octo" "pr" 0 ∧
    ("org:" ++ "octo") ∈ searchCriteria "octo" "pr" 0 ∧
    (("is:" ++ "pr") ∈ searchCriteria "octo" "pr" 0 ↔ "pr" ≠ "any") :=
  search_query_terms "octo" "pr" 0 (by decide)

/-! ## C5 -/

/-- C5: for every interval and unit, the creation-date lower bound the
search query of `getNewIssues` is built from is `dateOffset` applied to
the negated interval, and that bound equals the current time minus the
interval in whole days when the unit is `d` and in whole hours for any
other unit. -/
theorem creation_date_lower_bound (client : Client) (orgName issueType : String)
    (n : Int) (u : String) (now : Int) :
    (getNewIssues client orgName issueType n (some u) now).2.1 =
      [ApiCall.searchIssues (String.intercalate "+"
        (searchCriteria orgName issueType (dateOffset (-n) (some u) now)))] ∧
    dateOffset (-n) (some u) now =
      (if u = "d" then now - n * 86400000 else now - n * 3600000) := by
  refine ⟨rfl, ?_⟩
  unfold dateOffset
  simp only [Option.getD_some]
  split <;> ring

/-! ## C8 -/

lemma collectPages_eq_flatten (pages : List (List SearchItem)) :
    collectPages pages = pages.flatten.map toIssue := by
  induction pages with
  | nil => rfl
  | cons page rest ih => simp [collectPages, ih]

/-- C8: the issue-discovery loop consumes every search result page, and
when the pages together carry exactly the upstream total count of
records, the flattened issue list has that length. -/
theorem pagination_consumes_all_pages (client : Client) (orgName issueType : String)
    (n : Int) (u : Option String) (now : Int)
    (h : (client.searchPages.map List.length).sum = client.totalCount) :
    (getNewIssues client orgName issueType n u now).1 =
      client.searchPages.flatten.map toIssue ∧
    (getNewIssues client orgName issueType n u now).1.length = client.totalCount := by
  have he : (getNewIssues client orgName issueType n u now).1 =
      client.searchPages.flatten.map toIssue := collectPages_eq_flatten _
  refine ⟨he, ?_⟩
  rw [he, List.length_map, List.length_flatten, h]

/-- Concrete client for the C8 witness: two pages of one record each,
upstream total count 2. -/
def paginationClient : Client :=
  ⟨[], fun _ => [], [[⟨1, "A", false⟩], [⟨2, "B", true⟩]], 2,
   fun st _ _ => (.failure [], st), fun st _ => st⟩

/-- Witness for C8 on a two-page search result. -/
theorem pagination_consumes_all_pages_witness :
    (getNewIssues paginationClient "octo" "any" 1 none 0).1 =
      paginationClient.searchPages.flatten.map toIssue ∧
    (getNewIssues paginationClient "octo" "any" 1 none 0).1.length =
      paginationClient.totalCount :=
  pagination_consumes_all_pages paginationClient "octo" "any" 1 none 0 (by decide)

/-! ## C1 -/

/-- C1: for every issue and excluded-project column, `isIssueInProject`
attempts the probe card creation and classifies the result three ways:
a successful creation (the API hands back a nonzero card ID) deletes
the probe card and reports not-excluded; a failure whose error messages
include `falseAlarm` reports excluded; a failure with any other errors
reports not-excluded. -/
theorem isIssueInProject_classification (client : Client) (st : ApiState)
    (issueId columnId : Nat) :
    (∀ cardId st1, client.createCard st columnId issueId = (.success cardId, st1) →
      cardId ≠ 0 →
      isIssueInProject client st issueId columnId =
        ⟨false, client.deleteCard st1 cardId,
         [.createCard columnId issueId, .deleteCard cardId],
         [⟨.debug, "Card created in excluded project"⟩,
          ⟨.debug, "Card deleted from excluded project"⟩]⟩) ∧
    (∀ errs st1, client.createCard st columnId issueId = (.failure errs, st1) →
      falseAlarm ∈ errs.map GitHubError.message →
      isIssueInProject client st issueId columnId =
        ⟨true, st1, [.createCard columnId issueId], []⟩) ∧
    (∀ errs st1, client.createCard st columnId issueId = (.failure errs, st1) →
      falseAlarm ∉ errs.map GitHubError.message →
      isIssueInProject client st issueId columnId =
        ⟨false, st1, [.createCard columnId issueId], []⟩) := by
  refine ⟨?_, ?_, ?_⟩
  · intro cardId st1 hc hnz
    simp [isIssueInProject, addIssueToColumn, hc, hnz]
  · intro errs st1 hc hmem
    simp [isIssueInProject, addIssueToColumn, hc, hmem]
  · intro errs st1 hc hmem
    simp [isIssueInProject, addIssueToColumn, hc, hmem]

/-- Client for the C1 witness: the probe creation succeeds with card
ID 7. -/
def probeSuccessClient : Client :=
  ⟨[], fun _ => [], [], 0,
   fun st _ _ => (.success 7, st), githubDeleteCard⟩

/-- Witness for C1: the successful-probe case at a concrete client,
with the probe card deleted and not-excluded reported. -/
theorem isIssueInProject_classification_witness :
    isIssueInProject probeSuccessClient ⟨[⟨7, 40, 100⟩], 8⟩ 100 40 =
      ⟨false, ⟨[], 8⟩, [.createCard 40 100, .deleteCard 7],
       [⟨.debug, "Card created in excluded project"⟩,
        ⟨.debug, "Card deleted from excluded project"⟩]⟩ := by
  have h := (isIssueInProject_classification probeSuccessClient ⟨[⟨7, 40, 100⟩], 8⟩
    100 40).1 7 ⟨[⟨7, 40, 100⟩], 8⟩ rfl (by decide)
  rw [h]
  decide

/-! ## C2 -/

/-- Remote-state sanity: card IDs the API has already minted are below
the next one, and IDs start at 1 (GitHub IDs are positive). -/
def ApiState.WF (st : ApiState) : Prop :=
  0 < st.nextCardId ∧ ∀ c ∈ st.cards, c.id < st.nextCardId

/-- C2: with an excluded column configured and the issue already present
in the excluded project, the filing-loop iteration records the warning,
leaves the remote state untouched and issues no card creation in the
target column (its only remote call is the probe); and for any issue,
an exclusion check against a well-formed remote state leaves the card
set exactly as it found it, so a created probe card is deleted before
the check returns. -/
theorem excluded_issue_skipped (cp : Nat → Nat) (projects : List Project)
    (columns : Nat → List Column) (pages : List (List SearchItem)) (tot : Nat)
    (tc ec : Nat) (issue : Issue) (st : ApiState) (hec : ec ≠ 0)
    (hmem : hasIssueInProject cp st ec issue.id = true) :
    fileOne (githubClient cp projects columns pages tot) tc (some ec) issue st =
      ⟨st, [.createCard ec issue.id],
       [⟨.warning, "Ignoring issue \x27" ++ issue.title ++
         "\x27 as it belongs to excluded project"⟩]⟩ ∧
    (∀ (st₀ : ApiState) (iid c₀ : Nat), ApiState.WF st₀ →
      ((isIssueInProject (githubClient cp projects columns pages tot)
          st₀ iid c₀).st).cards = st₀.cards) := by
  constructor
  · simp [fileOne, isIssueInProject, addIssueToColumn, githubClient,
      githubCreateCard, hmem, hec, falseAlarm]
  · intro st₀ iid c₀ hwf
    obtain ⟨h1, h2⟩ := hwf
    by_cases h : hasIssueInProject cp st₀ c₀ iid
    · simp [isIssueInProject, addIssueToColumn, githubClient, githubCreateCard, h]
    · have hnz : st₀.nextCardId ≠ 0 := Nat.pos_iff_ne_zero.mp h1
      have hself : st₀.cards.filter (fun c => decide (c.id ≠ st₀.nextCardId)) = st₀.cards := by
        refine List.filter_eq_self.mpr ?_
        intro c hc
        have := h2 c hc
        simp only [decide_eq_true_eq]
        omega
      simp [isIssueInProject, addIssueToColumn, githubClient, githubCreateCard,
        h, githubDeleteCard, hnz, hself, List.filter_append]
      intro a ha
      have := h2 a ha
      omega

/-- Witness for C2: issue 100 already has a card in the excluded
project's column 40, so the iteration skips it; the state-preservation
part holds at the same client. -/
theorem excluded_issue_skipped_witness :
    fileOne (githubClient (fun c => c) [] (fun _ => []) [] 0) 20 (some 40)
        ⟨100, "A", false⟩ ⟨[⟨7, 40, 100⟩], 8⟩ =
      ⟨⟨[⟨7, 40, 100⟩], 8⟩, [.createCard 40 100],
       [⟨.warning, "Ignoring issue \x27" ++ "A" ++
         "\x27 as it belongs to excluded project"⟩]⟩ ∧
    (∀ (st₀ : ApiState) (iid c₀ : Nat), ApiState.WF st₀ →
      ((isIssueInProject (githubClient (fun c => c) [] (fun _ => []) [] 0)
          st₀ iid c₀).st).cards = st₀.cards) :=
  excluded_issue_skipped (fun c => c) [] (fun _ => []) [] 0 20 40
    ⟨100, "A", false⟩ ⟨[⟨7, 40, 100⟩], 8⟩ (by decide) (by decide)

/-! ## C9 -/

/-- A remote call that belongs to the exclusion check of the issue with
ID `iid` against the excluded column `ec`: the probe creation in that
column, or the deletion of the probe card. -/
def checkCall (ec : Option Nat) (iid : Nat) : ApiCall → Prop :=
  fun call => (∃ e, ec = some e ∧ call = .createCard e iid) ∨ ∃ cid, call = .deleteCard cid

/-- The shape of the remote calls one filing-loop iteration makes for
one issue: first the calls of its exclusion check, then either nothing
(the issue was skipped) or exactly one card-creation attempt for that
same issue in the target column. -/
def issueBlock (tc : Nat) (ec : Option Nat) (issue : Issue) (block : List ApiCall) : Prop :=
  ∃ trC trF, block = trC ++ trF ∧
    (∀ call ∈ trC, checkCall ec issue.id call) ∧
    (trF = [] ∨ trF = [.createCard tc issue.id])

lemma isIssueInProject_trace_checkCalls (client : Client) (st : ApiState)
    (iid e : Nat) :
    ∀ call ∈ (isIssueInProject client st iid e).trace, checkCall (some e) iid call := by
  intro call hcall
  unfold isIssueInProject addIssueToColumn at hcall
  rcases hr : client.createCard st e iid with ⟨resp, st1⟩
  rw [hr] at hcall
  rcases resp with cardId | errs
  · by_cases hz : cardId ≠ 0
    · simp [hz] at hcall
      rcases hcall with hcall | hcall
      · exact Or.inl ⟨e, rfl, hcall⟩
      · exact Or.inr ⟨cardId, hcall⟩
    · simp [hz] at hcall
      exact Or.inl ⟨e, rfl, hcall⟩
  · simp at hcall
    exact Or.inl ⟨e, rfl, hcall⟩

lemma fileCreate_trace (client : Client) (tc : Nat) (issue : Issue) (st : ApiState)
    (tr0 : List ApiCall) (lg0 : List LogEntry) :
    (fileCreate client tc issue st tr0 lg0).trace = tr0 ++ [.createCard tc issue.id] := by
  unfold fileCreate addIssueToColumn
  rcases hr : client.createCard st tc issue.id with ⟨resp, st1⟩
  rcases resp <;> simp

lemma fileOne_none (client : Client) (tc : Nat) (issue : Issue) (st : ApiState) :
    fileOne client tc none issue st = fileCreate client tc issue st [] [] := rfl

lemma fileOne_some_zero (client : Client) (tc : Nat) (issue : Issue) (st : ApiState) :
    fileOne client tc (some 0) issue st = fileCreate client tc issue st [] [] := by
  simp [fileOne]

lemma fileOne_some_skip (client : Client) (tc e : Nat) (issue : Issue) (st : ApiState)
    (hz : e ≠ 0) (hres : (isIssueInProject client st issue.id e).result = true) :
    fileOne client tc (some e) issue st =
      ⟨(isIssueInProject client st issue.id e).st,
       (isIssueInProject client st issue.id e).trace,
       (isIssueInProject client st issue.id e).logs ++
         [⟨.warning, "Ignoring issue \x27" ++ issue.title ++
           "\x27 as it belongs to excluded project"⟩]⟩ := by
  simp [fileOne, hz, hres]

lemma fileOne_some_create (client : Client) (tc e : Nat) (issue : Issue) (st : ApiState)
    (hz : e ≠ 0) (hres : (isIssueInProject client st issue.id e).result = false) :
    fileOne client tc (some e) issue st =
      fileCreate client tc issue (isIssueInProject client st issue.id e).st
        (isIssueInProject client st issue.id e).trace
        (isIssueInProject client st issue.id e).logs := by
  simp [fileOne, hz, hres]

lemma fileOne_issueBlock (client : Client) (tc : Nat) (ec : Option Nat)
    (issue : Issue) (st : ApiState) :
    issueBlock tc ec issue (fileOne client tc ec issue st).trace := by
  rcases ec with _ | e
  · exact ⟨[], [.createCard tc issue.id],
      by rw [fileOne_none, fileCreate_trace], by simp, Or.inr rfl⟩
  · by_cases hz : e = 0
    · subst hz
      exact ⟨[], [.createCard tc issue.id],
        by rw [fileOne_some_zero, fileCreate_trace], by simp, Or.inr rfl⟩
    · by_cases hres : (isIssueInProject client st issue.id e).result
      · refine ⟨(isIssueInProject client st issue.id e).trace, [], ?_, ?_, Or.inl rfl⟩
        · rw [fileOne_some_skip client tc e issue st hz hres]
          simp
        · exact isIssueInProject_trace_checkCalls client st issue.id e
      · refine ⟨(isIssueInProject client st issue.id e).trace,
          [.createCard tc issue.id], ?_, ?_, Or.inr rfl⟩
        · rw [fileOne_some_create client tc e issue st hz (by simpa using hres),
            fileCreate_trace]
        · exact isIssueInProject_trace_checkCalls client st issue.id e

/-- C9: the filing loop processes the discovered issues one at a time
in discovery order: its whole remote-call trace is the concatenation of
one contiguous block per issue, in list order, and within each issue's
block the exclusion-check calls come before the (at most one)
card-creation attempt for that same issue in the target column. -/
theorem filing_sequential_per_issue (client : Client) (tc : Nat) (ec : Option Nat)
    (issues : List Issue) (st : ApiState) :
    ∃ blocks : List (List ApiCall),
      (performFiling client tc ec issues st).trace = blocks.flatten ∧
      List.Forall₂ (issueBlock tc ec) issues blocks := by
  induction issues generalizing st with
  | nil => exact ⟨[], rfl, List.Forall₂.nil⟩
  | cons issue rest ih =>
      obtain ⟨blocks, htr, hf⟩ := ih (fileOne client tc ec issue st).st
      refine ⟨(fileOne client tc ec issue st).trace :: blocks, ?_, ?_⟩
      · simp [performFiling, htr]
      · exact List.Forall₂.cons (fileOne_issueBlock client tc ec issue st) hf

/-! ## C7 -/

/-- Client for the concrete part of C7: the organisation has only
project number 2, so looking up number 7 misses. -/
def noProjectClient : Client :=
  githubClient (fun _ => 0) [⟨10, 2, "Other"⟩] (fun _ => []) [] 0

/-- Inputs for the concrete part of C7: project number 7. -/
def noProjectInputs : String → String := fun n =>
  if n = "ACCESS_TOKEN" then "t"
  else if n = "ORG_NAME" then "octo"
  else if n = "PROJECT_NUMBER" then "7"
  else if n = "COLUMN_NAME" then "To Do"
  else ""

/-- C7: a project-number miss makes `fileIssues` throw `Project not
found` with only the project listing performed (no column listing, no
search, no filing); a column-name miss after a successful project
resolution throws `Column not found` with no issue search performed;
and such a failure marks the whole run failed in `main`. -/
theorem resolution_failures_abort :
    (∀ (client : Client) (org : String) (pn : Int) (cn : String)
        (epn : Option Int) (it : String) (n : Int) (u : Option String)
        (now : Int) (st : ApiState),
      client.projects.find? (fun proj => proj.number = pn) = none →
      fileIssues client org pn cn epn it n u now st =
        ⟨.error "Project not found", st, [.listForOrg org], []⟩) ∧
    (∀ (client : Client) (org : String) (pn : Int) (cn : String)
        (epn : Option Int) (it : String) (n : Int) (u : Option String)
        (now : Int) (st : ApiState) (proj : Project),
      client.projects.find? (fun p => p.number = pn) = some proj →
      (client.columns proj.id).find? (fun col => col.name = cn) = none →
      fileIssues client org pn cn epn it n u now st =
        ⟨.error "Column not found", st, [.listForOrg org, .listColumns proj.id],
         [⟨.info, "Project ID: " ++ toString proj.id⟩,
          ⟨.info, "Project Name: " ++ proj.name⟩]⟩) ∧
    (main noProjectInputs noProjectClient 0 ⟨[], 1⟩).map
        (fun r => (r.status, r.trace)) =
      some (.failed "Project not found", [.listForOrg "octo"]) := by
  refine ⟨?_, ?_, ?_⟩
  · intro client org pn cn epn it n u now st h
    simp [fileIssues, getProjectId, h]
  · intro client org pn cn epn it n u now st proj h1 h2
    simp [fileIssues, getProjectId, getColumnId, h1, h2]
  · decide

/-! ## C10 -/

lemma fileOne_not_truthy (client : Client) (tc : Nat) (ec : Option Nat)
    (issue : Issue) (st : ApiState) (hec : truthyNat ec = false) :
    fileOne client tc ec issue st = fileOne client tc none issue st := by
  rcases ec with _ | e
  · rfl
  · have hz : e = 0 := by simpa [truthyNat] using hec
    subst hz
    rw [fileOne_some_zero, fileOne_none]

lemma performFiling_not_truthy (client : Client) (tc : Nat) (ec : Option Nat)
    (issues : List Issue) (st : ApiState) (hec : truthyNat ec = false) :
    performFiling client tc ec issues st = performFiling client tc none issues st := by
  induction issues generalizing st with
  | nil => rfl
  | cons issue rest ih =>
      simp only [performFiling, fileOne_not_truthy client tc ec issue st hec, ih]

lemma performFiling_none_trace (client : Client) (tc : Nat)
    (issues : List Issue) (st : ApiState) :
    (performFiling client tc none issues st).trace =
      issues.map fun i => .createCard tc i.id := by
  induction issues generalizing st with
  | nil => rfl
  | cons issue rest ih =>
      simp only [performFiling, fileOne_none, List.map_cons]
      rw [fileCreate_trace, ih]
      simp

/-- Client for C10: the target board is project number 1 (ID 10, column
20 named `To Do`), the excluded project is number 2 (ID 30) with the
given column list, and the search returns the given records. -/
def unusableExcludedClient (cp : Nat → Nat) (excludedCols : List Column)
    (items : List SearchItem) : Client :=
  githubClient cp [⟨10, 1, "Board"⟩, ⟨30, 2, "Excluded"⟩]
    (fun pid => if pid = 10 then [⟨20, "To Do"⟩]
      else if pid = 30 then excludedCols else [])
    [items] items.length

/-- C10: when the configured excluded project resolves but its first
column ID is falsy (no columns, or ID 0), the run proceeds with the
whole exclusion check silently skipped: the filing is identical to a
run with no excluded project configured, every discovered issue gets a
card-creation attempt in the target column (the full trace shows no
probe and no delete), the run succeeds, and the excluded-project
resolution logs only info lines (no warning or error about the
unusable project). -/
theorem unusable_excluded_project_skipped (cp : Nat → Nat)
    (excludedCols : List Column) (items : List SearchItem) (st : ApiState)
    (now : Int)
    (hec : truthyNat (excludedCols.map Column.id).head? = false) :
    (fileIssues (unusableExcludedClient cp excludedCols items) "octo" 1 "To Do"
        (some 2) "any" 1 (some "d") now st).result = .ok () ∧
    (fileIssues (unusableExcludedClient cp excludedCols items) "octo" 1 "To Do"
        (some 2) "any" 1 (some "d") now st).trace =
      [.listForOrg "octo", .listColumns 10, .listForOrg "octo", .listColumns 30,
       .searchIssues (String.intercalate "+"
         (searchCriteria "octo" "any" (dateOffset (-1) (some "d") now)))] ++
        (items.map fun i => .createCard 20 i.id) ∧
    performFiling (unusableExcludedClient cp excludedCols items) 20
        (excludedCols.map Column.id).head? (items.map toIssue) st =
      performFiling (unusableExcludedClient cp excludedCols items) 20
        none (items.map toIssue) st ∧
    (∀ l ∈ (resolveExcludedColumn (unusableExcludedClient cp excludedCols items)
        "octo" (some 2)).2.2, l.level = .info) := by
  have hproj : getProjectId (unusableExcludedClient cp excludedCols items) "octo" 1 =
      (.ok 10, [.listForOrg "octo"],
       [⟨.info, "Project ID: " ++ toString 10⟩,
        ⟨.info, "Project Name: " ++ "Board"⟩]) := rfl
  have hcol : getColumnId (unusableExcludedClient cp excludedCols items) 10 "To Do" =
      (.ok 20, [.listColumns 10], [⟨.info, "Column ID: " ++ toString 20⟩]) := rfl
  have hresolve : resolveExcludedColumn (unusableExcludedClient cp excludedCols items)
      "octo" (some 2) =
      (.ok (excludedCols.map Column.id).head?,
       [.listForOrg "octo", .listColumns 30],
       [⟨.info, "Project ID: " ++ toString 30⟩,
        ⟨.info, "Project Name: " ++ "Excluded"⟩,
        ⟨.info, "Retrieved " ++ toString excludedCols.length ++ " columns"⟩,
        ⟨.info, "Column ID: " ++
          showOptNat (excludedCols.map Column.id).head?⟩]) := rfl
  have hfil := performFiling_not_truthy (unusableExcludedClient cp excludedCols items)
    20 (excludedCols.map Column.id).head? (items.map toIssue) st hec
  have hcoll : collectPages [items] = items.map toIssue := by
    simp [collectPages]
  refine ⟨?_, ?_, hfil, ?_⟩
  · simp only [fileIssues, hproj, hcol, hresolve, getNewIssues]
  · simp only [fileIssues, hproj, hcol, hresolve, getNewIssues]
    have hpages : (unusableExcludedClient cp excludedCols items).searchPages =
        [items] := rfl
    rw [hpages, hcoll, hfil, performFiling_none_trace]
    simp [toIssue]
  · rw [hresolve]
    intro l hl
    simp only [List.mem_cons, List.not_mem_nil, or_false] at hl
    rcases hl with h | h | h | h <;> subst h <;> rfl

/-- Witness for C10: the excluded project exists but has zero columns. -/
theorem unusable_excluded_project_skipped_witness :
    (fileIssues (unusableExcludedClient (fun _ => 0) [] [⟨100, "A", false⟩])
        "octo" 1 "To Do" (some 2) "any" 1 (some "d") 0 ⟨[], 1⟩).result = .ok () ∧
    (fileIssues (unusableExcludedClient (fun _ => 0) [] [⟨100, "A", false⟩])
        "octo" 1 "To Do" (some 2) "any" 1 (some "d") 0 ⟨[], 1⟩).trace =
      [.listForOrg "octo", .listColumns 10, .listForOrg "octo", .listColumns 30,
       .searchIssues (String.intercalate "+"
         (searchCriteria "octo" "any" (dateOffset (-1) (some "d") 0)))] ++
        ([⟨100, "A", false⟩] : List SearchItem).map (fun i => .createCard 20 i.id) ∧
    performFiling (unusableExcludedClient (fun _ => 0) [] [⟨100, "A", false⟩]) 20
        (([] : List Column).map Column.id).head?
        (([⟨100, "A", false⟩] : List SearchItem).map toIssue) ⟨[], 1⟩ =
      performFiling (unusableExcludedClient (fun _ => 0) [] [⟨100, "A", false⟩]) 20
        none (([⟨100, "A", false⟩] : List SearchItem).map toIssue) ⟨[], 1⟩ ∧
    (∀ l ∈ (resolveExcludedColumn
        (unusableExcludedClient (fun _ => 0) [] [⟨100, "A", false⟩])
        "octo" (some 2)).2.2, l.level = .info) :=
  unusable_excluded_project_skipped (fun _ => 0) [] [⟨100, "A", false⟩]
    ⟨[], 1⟩ 0 (by decide)

/-! ## C3 -/

/-- An issue as the search result record that discovers it. -/
def toItem (i : Issue) : SearchItem := ⟨i.id, i.title, i.isPullRequest⟩

/-- Client for C3: one board (project number 1, ID 10, column 20 named
`To Do`), no excluded project, and a search that discovers exactly the
two given issues. -/
def twoIssueClient (cp : Nat → Nat) (i1 i2 : Issue) : Client :=
  githubClient cp [⟨10, 1, "Board"⟩]
    (fun pid => if pid = 10 then [⟨20, "To Do"⟩] else [])
    [[toItem i1, toItem i2]] 2

/-- C3: with one new issue and one issue that already has a card in the
target column, the filing loop produces exactly one success outcome
(logged as info) and one duplicate outcome (logged as a warning, not an
error), continues past both (both card-creation attempts appear in the
trace), works the same with the two issues in either discovery order,
and the whole run still reports success with no error-level log. -/
theorem duplicate_nonfatal (cp : Nat → Nat) (i1 i2 : Issue) (st : ApiState)
    (now : Int)
    (h1 : hasIssueInProject cp st 20 i1.id = false)
    (h2 : hasIssueInProject cp st 20 i2.id = true) :
    performFiling (twoIssueClient cp i1 i2) 20 none [i1, i2] st =
      ⟨⟨st.cards ++ [⟨st.nextCardId, 20, i1.id⟩], st.nextCardId + 1⟩,
       [.createCard 20 i1.id, .createCard 20 i2.id],
       [⟨.info, "Card creation succeeded for issue \x27" ++ i1.title ++ "\x27."⟩,
        ⟨.warning, "Card already exists for issue \x27" ++ i2.title ++ "\x27."⟩]⟩ ∧
    performFiling (twoIssueClient cp i1 i2) 20 none [i2, i1] st =
      ⟨⟨st.cards ++ [⟨st.nextCardId, 20, i1.id⟩], st.nextCardId + 1⟩,
       [.createCard 20 i2.id, .createCard 20 i1.id],
       [⟨.warning, "Card already exists for issue \x27" ++ i2.title ++ "\x27."⟩,
        ⟨.info, "Card creation succeeded for issue \x27" ++ i1.title ++ "\x27."⟩]⟩ ∧
    (fileIssues (twoIssueClient cp i1 i2) "octo" 1 "To Do" none "any" 1
        (some "d") now st).result = .ok () ∧
    (∀ l ∈ (fileIssues (twoIssueClient cp i1 i2) "octo" 1 "To Do" none "any" 1
        (some "d") now st).logs, l.level ≠ .error) := by
  have hst1 : hasIssueInProject cp
      ⟨st.cards ++ [⟨st.nextCardId, 20, i1.id⟩], st.nextCardId + 1⟩ 20 i2.id = true := by
    unfold hasIssueInProject at h2 ⊢
    rw [List.any_append]
    simp only [h2, Bool.true_or]
  have hb : performFiling (twoIssueClient cp i1 i2) 20 none [i1, i2] st =
      ⟨⟨st.cards ++ [⟨st.nextCardId, 20, i1.id⟩], st.nextCardId + 1⟩,
       [.createCard 20 i1.id, .createCard 20 i2.id],
       [⟨.info, "Card creation succeeded for issue \x27" ++ i1.title ++ "\x27."⟩,
        ⟨.warning, "Card already exists for issue \x27" ++ i2.title ++ "\x27."⟩]⟩ := by
    simp [performFiling, fileOne_none, fileCreate, addIssueToColumn, twoIssueClient,
      githubClient, githubCreateCard, h1, h2, hst1, falseAlarm]
  have hb2 : performFiling (twoIssueClient cp i1 i2) 20 none [i2, i1] st =
      ⟨⟨st.cards ++ [⟨st.nextCardId, 20, i1.id⟩], st.nextCardId + 1⟩,
       [.createCard 20 i2.id, .createCard 20 i1.id],
       [⟨.warning, "Card already exists for issue \x27" ++ i2.title ++ "\x27."⟩,
        ⟨.info, "Card creation succeeded for issue \x27" ++ i1.title ++ "\x27."⟩]⟩ := by
    simp [performFiling, fileOne_none, fileCreate, addIssueToColumn, twoIssueClient,
      githubClient, githubCreateCard, h1, h2, falseAlarm]
  have hproj : getProjectId (twoIssueClient cp i1 i2) "octo" 1 =
      (.ok 10, [.listForOrg "octo"],
       [⟨.info, "Project ID: " ++ toString 10⟩,
        ⟨.info, "Project Name: " ++ "Board"⟩]) := rfl
  have hcol : getColumnId (twoIssueClient cp i1 i2) 10 "To Do" =
      (.ok 20, [.listColumns 10], [⟨.info, "Column ID: " ++ toString 20⟩]) := rfl
  have hcoll : collectPages [[toItem i1, toItem i2]] = [i1, i2] := rfl
  have hpages : (twoIssueClient cp i1 i2).searchPages = [[toItem i1, toItem i2]] := rfl
  refine ⟨hb, hb2, ?_, ?_⟩
  · simp only [fileIssues, hproj, hcol, resolveExcludedColumn, getNewIssues]
  · simp only [fileIssues, hproj, hcol, resolveExcludedColumn, getNewIssues,
      hpages, hcoll, hb, fetchLogs, List.append_assoc, List.cons_append,
      List.nil_append, List.append_nil]
    intro l hl
    fin_cases hl <;> simp

/-- Witness for C3: issue 100 is new, issue 101 already has a card in
the target column 20. -/
theorem duplicate_nonfatal_witness :
    performFiling (twoIssueClient (fun _ => 0) ⟨100, "A", false⟩ ⟨101, "B", true⟩)
        20 none [⟨100, "A", false⟩, ⟨101, "B", true⟩] ⟨[⟨5, 20, 101⟩], 6⟩ =
      ⟨⟨[⟨5, 20, 101⟩] ++ [⟨6, 20, 100⟩], 6 + 1⟩,
       [.createCard 20 100, .createCard 20 101],
       [⟨.info, "Card creation succeeded for issue \x27" ++ "A" ++ "\x27."⟩,
        ⟨.warning, "Card already exists for issue \x27" ++ "B" ++ "\x27."⟩]⟩ ∧
    performFiling (twoIssueClient (fun _ => 0) ⟨100, "A", false⟩ ⟨101, "B", true⟩)
        20 none [⟨101, "B", true⟩, ⟨100, "A", false⟩] ⟨[⟨5, 20, 101⟩], 6⟩ =
      ⟨⟨[⟨5, 20, 101⟩] ++ [⟨6, 20, 100⟩], 6 + 1⟩,
       [.createCard 20 101, .createCard 20 100],
       [⟨.warning, "Card already exists for issue \x27" ++ "B" ++ "\x27."⟩,
        ⟨.info, "Card creation succeeded for issue \x27" ++ "A" ++ "\x27."⟩]⟩ ∧
    (fileIssues (twoIssueClient (fun _ => 0) ⟨100, "A", false⟩ ⟨101, "B", true⟩)
        "octo" 1 "To Do" none "any" 1 (some "d") 0 ⟨[⟨5, 20, 101⟩], 6⟩).result =
      .ok () ∧
    (∀ l ∈ (fileIssues (twoIssueClient (fun _ => 0) ⟨100, "A", false⟩
        ⟨101, "B", true⟩) "octo" 1 "To Do" none "any" 1 (some "d") 0
        ⟨[⟨5, 20, 101⟩], 6⟩).logs, l.level ≠ .error) :=
  duplicate_nonfatal (fun _ => 0) ⟨100, "A", false⟩ ⟨101, "B", true⟩
    ⟨[⟨5, 20, 101⟩], 6⟩ 0 (by decide) (by decide)

/-! ## C6 -/

/-- Inputs matching the README's documented surface, with
`INTERVAL_UNIT` set to `h` (hours) and `INTERVAL` to 4. -/
def hourUnitInputs : String → String := fun n =>
  if n = "ACCESS_TOKEN" then "486aa6349a2a17a3c83b9f649c09b592a7b81368"
  else if n = "ORG_NAME" then "octo"
  else if n = "PROJECT_NUMBER" then "1"
  else if n = "COLUMN_NAME" then "To Do"
  else if n = "INTERVAL" then "4"
  else if n = "INTERVAL_UNIT" then "h"
  else ""

/-- Client for C6: one board, an empty search result. -/
def hourUnitClient : Client :=
  githubClient (fun _ => 10) [⟨10, 1, "Board"⟩]
    (fun pid => if pid = 10 then [⟨20, "To Do"⟩] else []) [] 0

/-- C6 (code bug): a run with `INTERVAL_UNIT` set to `h` and `INTERVAL`
set to 4 still issues the day-based search bound: the query's
creation-date lower bound is the one `dateOffset` yields for the
default unit `d` (now minus 4 days), not the hour-based bound `main`
never requests, because `main` reads no `INTERVAL_UNIT` input and
passes no `intervalUnit` argument to `fileIssues`. -/
theorem interval_unit_ignored :
    (main hourUnitInputs hourUnitClient 0 ⟨[], 1⟩).map
        (fun r => (r.status, r.trace)) =
      some (.success, [.listForOrg "octo", .listColumns 10,
        .searchIssues (String.intercalate "+"
          (searchCriteria "octo" "any" (dateOffset (-4) (some "d") 0)))]) ∧
    dateOffset (-4) (some "d") 0 = -345600000 ∧
    dateOffset (-4) (some "h") 0 = -14400000 := by
  refine ⟨rfl, by decide, by decide⟩

end IssueProjector
